import Mathlib

/-!
Verification of the overlay segment manager of `src/src/46270.c` and the
spawn wrappers of `src/src/volcano/72BCE0.c` and `src/src/volcano/72F100.c`,
as a shallow embedding.

Memory is modelled as a byte map `Nat → Nat`; the two process-wide s32
fields `D_800B0578` and `D_800AC00C` are explicit `Int` fields of a
`MachineState`. Link-time constants (segment ROM/VRAM addresses, overlay
images) are parameters of the embedding, collected in a `LinkMap`.
The scene-manager counter `i` of `func_8009B40C` is an s32 that starts at 0
and is only incremented up to 0x11, so it is embedded as a `Nat`.
-/

/-- The overlay symbols referenced by `46270.c`: the seven stage overlays
and the two manager overlays reloaded by `func_8009B40C`. -/
inductive OverlayName
  | stage0 | stage1 | stage2 | stage3 | stage4 | stage5 | stage6
  | D_800ABBD0 | D_800ABDEC
deriving DecidableEq, Repr

/-- The segment names declared via `SEGMENT(...)` in `46270.c`. -/
inductive SegName
  | magikarp1 | pikachu1 | zubat1 | bulbasaur1
  | stage0_extra | stage1_extra | stage4_extra | stage3_extra
  | stage2_extra | stage5_extra | stage6_extra
  | magikarp2 | pikachu2 | zubat2 | bulbasaur2
deriving DecidableEq, Repr

/-- A load call issued by the stage loader: either `load_overlay(&ovl)` or
the `loadSegment(name)` macro. -/
inductive Event
  | load_overlay (o : OverlayName)
  | loadSegment (s : SegName)
deriving DecidableEq, Repr

/-- A segment descriptor: ROM source range and RAM destination
(`name_ROM_START`, `name_ROM_END`, `name_VRAM`). -/
structure SegmentDescriptor where
  romStart : Nat
  romEnd : Nat
  ramDestination : Nat

/-- Modelled from the spec: `dma_rom_read(src, dest, n)` is declared in
`sys/dma.h` but its body is not in src/. Per spec §4.2 it copies exactly
`n` bytes from the backing store (`rom`) at offset `src` into the memory
window at `dest`, synchronously, leaving all other addresses untouched. -/
def dma_rom_read (rom : Nat → Nat) (src dest n : Nat) (mem : Nat → Nat) : Nat → Nat :=
  fun a => if dest ≤ a ∧ a < dest + n then rom (src + (a - dest)) else mem a

/-- The `loadSegment(name)` macro of `46270.c`:
`dma_rom_read(&name_ROM_START, &name_VRAM, name_ROM_END - name_ROM_START)`. -/
def loadSegment (rom : Nat → Nat) (d : SegmentDescriptor) (mem : Nat → Nat) : Nat → Nat :=
  dma_rom_read rom d.romStart d.ramDestination (d.romEnd - d.romStart) mem

/-- An overlay image: its fixed RAM window and its content bytes. -/
structure Overlay where
  ramStart : Nat
  size : Nat
  content : Nat → Nat

/-- Modelled from the spec: `load_overlay` is external to src/. Per spec
§4.3/§3 it binds the overlay into its designated RAM window, fully
overwriting the window (displacing any prior occupant) and leaving all
addresses outside the window untouched. -/
def load_overlay (ov : Overlay) (mem : Nat → Nat) : Nat → Nat :=
  fun a => if ov.ramStart ≤ a ∧ a < ov.ramStart + ov.size then ov.content (a - ov.ramStart) else mem a

/-- The link-time environment: where each segment and overlay lives, and
the ROM contents backing the DMA loads. -/
structure LinkMap where
  segTable : SegName → SegmentDescriptor
  ovlTable : OverlayName → Overlay
  rom : Nat → Nat

/-- Process state visible to `46270.c`: RAM plus the two globals
`D_800B0578` and `D_800AC00C`. -/
structure MachineState where
  mem : Nat → Nat
  D_800B0578 : Int
  D_800AC00C : Int

/-- `void func_8009A8C0(s32 arg0) { D_800B0578 = arg0; }` -/
def func_8009A8C0 (arg0 : Int) (st : MachineState) : MachineState :=
  { st with D_800B0578 := arg0 }

/-- `s32 func_8009A8CC(void) { return D_800B0578; }` -/
def func_8009A8CC (st : MachineState) : Int :=
  st.D_800B0578

/-- `void func_8009A8D8(s32 arg0) { D_800AC00C = arg0; }` -/
def func_8009A8D8 (arg0 : Int) (st : MachineState) : MachineState :=
  { st with D_800AC00C := arg0 }

/-- `s32 func_8009A8E4(void) { return D_800AC00C; }` -/
def func_8009A8E4 (st : MachineState) : Int :=
  st.D_800AC00C

/-- The sequence of load calls performed by the `switch (param_1)` body of
`func_8009A8F0`, case by case in source order (0, 1, 4, 3, 2, 5, 6); a
value outside the cases falls through to `return` with no call. -/
def func_8009A8F0_loads (param_1 : Int) : List Event :=
  if param_1 = 0 then
    [.load_overlay .stage0, .loadSegment .stage0_extra,
     .loadSegment .magikarp1, .loadSegment .magikarp2,
     .loadSegment .pikachu1, .loadSegment .pikachu2]
  else if param_1 = 1 then
    [.load_overlay .stage1, .loadSegment .stage1_extra,
     .loadSegment .magikarp1, .loadSegment .magikarp2,
     .loadSegment .pikachu1, .loadSegment .pikachu2,
     .loadSegment .zubat1, .loadSegment .zubat2]
  else if param_1 = 4 then
    [.load_overlay .stage4, .loadSegment .stage4_extra,
     .loadSegment .bulbasaur1, .loadSegment .bulbasaur2,
     .loadSegment .magikarp1, .loadSegment .magikarp2,
     .loadSegment .pikachu1, .loadSegment .pikachu2,
     .loadSegment .zubat1, .loadSegment .zubat2]
  else if param_1 = 3 then
    [.load_overlay .stage3, .loadSegment .stage3_extra,
     .loadSegment .bulbasaur1, .loadSegment .bulbasaur2,
     .loadSegment .magikarp1, .loadSegment .magikarp2,
     .loadSegment .pikachu1, .loadSegment .pikachu2]
  else if param_1 = 2 then
    [.load_overlay .stage2, .loadSegment .stage2_extra,
     .loadSegment .magikarp1, .loadSegment .magikarp2]
  else if param_1 = 5 then
    [.load_overlay .stage5, .loadSegment .stage5_extra,
     .loadSegment .magikarp1, .loadSegment .magikarp2]
  else if param_1 = 6 then
    [.load_overlay .stage6, .loadSegment .stage6_extra]
  else []

/-- Effect of one load call on the machine state: both `load_overlay` and
`loadSegment` write memory only; neither touches the two globals. -/
def applyEventM (L : LinkMap) (st : MachineState) : Event → MachineState
  | .load_overlay o => { st with mem := load_overlay (L.ovlTable o) st.mem }
  | .loadSegment s => { st with mem := loadSegment L.rom (L.segTable s) st.mem }

/-- `void func_8009A8F0(int param_1)`: performs its case's load calls in
order; no other effect. -/
def func_8009A8F0 (L : LinkMap) (param_1 : Int) (st : MachineState) : MachineState :=
  (func_8009A8F0_loads param_1).foldl (applyEventM L) st

/-- The §6 stage-index → resources table, transcribed from the SPEC (not
from the source): stage overlay first, then the stage-extra segment, then
the shared creature segments in table order. -/
def spec_stage_table (stage : Int) : List Event :=
  if stage = 0 then
    [.load_overlay .stage0, .loadSegment .stage0_extra,
     .loadSegment .magikarp1, .loadSegment .magikarp2,
     .loadSegment .pikachu1, .loadSegment .pikachu2]
  else if stage = 1 then
    [.load_overlay .stage1, .loadSegment .stage1_extra,
     .loadSegment .magikarp1, .loadSegment .magikarp2,
     .loadSegment .pikachu1, .loadSegment .pikachu2,
     .loadSegment .zubat1, .loadSegment .zubat2]
  else if stage = 2 then
    [.load_overlay .stage2, .loadSegment .stage2_extra,
     .loadSegment .magikarp1, .loadSegment .magikarp2]
  else if stage = 3 then
    [.load_overlay .stage3, .loadSegment .stage3_extra,
     .loadSegment .bulbasaur1, .loadSegment .bulbasaur2,
     .loadSegment .magikarp1, .loadSegment .magikarp2,
     .loadSegment .pikachu1, .loadSegment .pikachu2]
  else if stage = 4 then
    [.load_overlay .stage4, .loadSegment .stage4_extra,
     .loadSegment .bulbasaur1, .loadSegment .bulbasaur2,
     .loadSegment .magikarp1, .loadSegment .magikarp2,
     .loadSegment .pikachu1, .loadSegment .pikachu2,
     .loadSegment .zubat1, .loadSegment .zubat2]
  else if stage = 5 then
    [.load_overlay .stage5, .loadSegment .stage5_extra,
     .loadSegment .magikarp1, .loadSegment .magikarp2]
  else if stage = 6 then
    [.load_overlay .stage6, .loadSegment .stage6_extra]
  else []

/-- State of the scene-manager loop `func_8009B40C`: `RUNNING i` is the top
of the `for (;;)` body with counter `i`; the two `while (TRUE);` spins are
the halted states (step failure, resp. counter reaching 0x11). -/
inductive SceneState
  | RUNNING (counter : Nat)
  | HALTED_ERROR
  | HALTED_LIMIT
deriving DecidableEq, Repr

/-- Observable actions of one loop iteration: the overlay reloads and the
call of the external step function `func_801DD010(i)`. -/
inductive SceneEvent
  | load (e : Event)
  | callStep (i : Nat)
deriving DecidableEq, Repr

/-- One iteration of the `for (;;)` body of `func_8009B40C`, parameterized
by the external `s32 func_801DD010(s32)` as `f`. From `RUNNING i` it first
issues `load_overlay(&D_800ABDEC)` then `load_overlay(&D_800ABBD0)`, then
calls `f i`; a nonzero result enters the error spin, otherwise `i`
increments and `i == 0x11` enters the limit spin. The spins transition to
themselves with no events. `none` would model yielding control back to the
caller; no branch produces it. -/
def func_8009B40C_step (f : Nat → Int) : SceneState → Option (SceneState × List SceneEvent)
  | .RUNNING i =>
      some (if f i ≠ 0 then .HALTED_ERROR
            else if i + 1 = 0x11 then .HALTED_LIMIT
            else .RUNNING (i + 1),
            [.load (.load_overlay .D_800ABDEC), .load (.load_overlay .D_800ABBD0), .callStep i])
  | .HALTED_ERROR => some (.HALTED_ERROR, [])
  | .HALTED_LIMIT => some (.HALTED_LIMIT, [])

/-- The state component of one iteration (total, since no branch yields). -/
def sceneStepState (f : Nat → Int) (s : SceneState) : SceneState :=
  match func_8009B40C_step f s with
  | some (s2, _) => s2
  | none => s

/-- Iterating the loop body `n` times from state `s`. -/
def sceneRun (f : Nat → Int) : Nat → SceneState → SceneState
  | 0, s => s
  | n + 1, s => sceneRun f n (sceneStepState f s)

/-- The loop state after `n` iterations from the initial `i = 0`. -/
def sceneRunState (f : Nat → Int) (n : Nat) : SceneState :=
  sceneRun f n (.RUNNING 0)

/-- The events emitted by iteration `n` (counting from 0) of the loop
started at `i = 0`. -/
def iterEvents (f : Nat → Int) (n : Nat) : List SceneEvent :=
  match func_8009B40C_step f (sceneRunState f n) with
  | some (_, evs) => evs
  | none => []

/-- External collaborators of the volcano spawn wrappers: the opaque
`spawnPokemonOnGround` and the two static `PokemonInitData` records. The
pointer/record types are abstract. -/
structure SpawnEnv (Block Spawn Init Obj : Type) where
  spawnPokemonOnGround : Int → Nat → Block → Block → Spawn → Init → Obj
  D_802E2710_733910 : Init
  D_802E31B0_7343B0 : Init

/-- `func_802DB558_72C758` of `volcano/72BCE0.c`: forwards everything to
`spawnPokemonOnGround` except `initData`, which it replaces by the static
`&D_802E2710_733910`. -/
def func_802DB558_72C758 {B S I O : Type} (env : SpawnEnv B S I O)
    (objID : Int) (id : Nat) (block blockB : B) (spawn : S) (_initData : I) : O :=
  env.spawnPokemonOnGround objID id block blockB spawn env.D_802E2710_733910

/-- `func_802DE34C_72F54C` of `volcano/72F100.c`: forwards everything to
`spawnPokemonOnGround` except `initData`, which it replaces by the static
`&D_802E31B0_7343B0`. -/
def func_802DE34C_72F54C {B S I O : Type} (env : SpawnEnv B S I O)
    (objID : Int) (id : Nat) (block blockB : B) (spawn : S) (_initData : I) : O :=
  env.spawnPokemonOnGround objID id block blockB spawn env.D_802E31B0_7343B0

/-- Helper: a fold of load calls never changes the two globals. -/
theorem fields_after_loads (L : LinkMap) (evs : List Event) (st : MachineState) :
    ((evs.foldl (applyEventM L) st).D_800B0578 = st.D_800B0578) ∧
    ((evs.foldl (applyEventM L) st).D_800AC00C = st.D_800AC00C) := by
  induction evs generalizing st with
  | nil => exact ⟨rfl, rfl⟩
  | cons e rest ih => cases e <;> exact ih _

/-- C1: for every stage index in 0..6, `func_8009A8F0` issues exactly the
loads listed in the §6 table for that stage and no others, in exactly the
table's order (overlay first, then the extra segment, then the shared
segments). -/
theorem func_8009A8F0_matches_spec_table (i : Int) (h0 : 0 ≤ i) (h6 : i ≤ 6) :
    func_8009A8F0_loads i = spec_stage_table i := by
  interval_cases i <;> decide

theorem func_8009A8F0_matches_spec_table_witness :
    (0 : Int) ≤ 3 ∧ (3 : Int) ≤ 6 ∧ func_8009A8F0_loads 3 = spec_stage_table 3 :=
  ⟨by decide, by decide, func_8009A8F0_matches_spec_table 3 (by decide) (by decide)⟩

/-- C3: the `loadSegment` macro (via `dma_rom_read`) copies exactly
`romEnd - romStart` bytes from ROM offset `romStart` to `ramDestination`:
afterwards every byte of the destination window equals the corresponding
source byte, and every address outside the window is unchanged. -/
theorem loadSegment_copies_range (rom : Nat → Nat) (d : SegmentDescriptor) (mem : Nat → Nat) :
    (∀ i, i < d.romEnd - d.romStart →
      loadSegment rom d mem (d.ramDestination + i) = rom (d.romStart + i)) ∧
    (∀ a, a < d.ramDestination ∨ d.ramDestination + (d.romEnd - d.romStart) ≤ a →
      loadSegment rom d mem a = mem a) := by
  constructor
  · intro i hi
    unfold loadSegment dma_rom_read
    rw [if_pos (by omega : d.ramDestination ≤ d.ramDestination + i ∧
      d.ramDestination + i < d.ramDestination + (d.romEnd - d.romStart))]
    congr 1
    omega
  · intro a ha
    unfold loadSegment dma_rom_read
    rw [if_neg]
    omega

theorem loadSegment_copies_range_witness :
    2 < 14 - 10 ∧
    loadSegment (fun a => a + 1) ⟨10, 14, 100⟩ (fun _ => 0) (100 + 2) = (fun a => a + 1) (10 + 2) ∧
    loadSegment (fun a => a + 1) ⟨10, 14, 100⟩ (fun _ => 0) 99 = (fun _ => (0 : Nat)) 99 :=
  ⟨by decide,
   (loadSegment_copies_range (fun a => a + 1) ⟨10, 14, 100⟩ (fun _ => 0)).1 2 (by decide),
   (loadSegment_copies_range (fun a => a + 1) ⟨10, 14, 100⟩ (fun _ => 0)).2 99 (Or.inl (by decide))⟩

/-- C7: loading a second overlay into the same RAM window fully displaces
the first: the resulting memory equals what loading only the second would
give, and every byte of the window holds the second overlay's content. -/
theorem load_overlay_exclusive (o1 o2 : Overlay) (mem : Nat → Nat)
    (hs : o1.ramStart = o2.ramStart) (hz : o1.size = o2.size) :
    load_overlay o2 (load_overlay o1 mem) = load_overlay o2 mem ∧
    ∀ a, o2.ramStart ≤ a ∧ a < o2.ramStart + o2.size →
      load_overlay o2 (load_overlay o1 mem) a = o2.content (a - o2.ramStart) := by
  constructor
  · funext a
    simp only [load_overlay, hs, hz]
    by_cases h : o2.ramStart ≤ a ∧ a < o2.ramStart + o2.size
    · simp [h]
    · simp [h]
  · intro a ha
    simp only [load_overlay]
    rw [if_pos ha]

theorem load_overlay_exclusive_witness :
    load_overlay ⟨0, 4, fun _ => 2⟩ (load_overlay ⟨0, 4, fun _ => 1⟩ (fun _ => 9)) =
      load_overlay ⟨0, 4, fun _ => 2⟩ (fun _ => 9) :=
  (load_overlay_exclusive ⟨0, 4, fun _ => 1⟩ ⟨0, 4, fun _ => 2⟩ (fun _ => 9) rfl rfl).1

/-- C8: for a stage index outside 0..6, `func_8009A8F0` performs no load
call at all and leaves the whole machine state unchanged. -/
theorem func_8009A8F0_out_of_range_noop (L : LinkMap) (i : Int) (st : MachineState)
    (h : i < 0 ∨ 6 < i) :
    func_8009A8F0_loads i = [] ∧ func_8009A8F0 L i st = st := by
  have h0 : ¬ i = 0 := by omega
  have h1 : ¬ i = 1 := by omega
  have h2 : ¬ i = 2 := by omega
  have h3 : ¬ i = 3 := by omega
  have h4 : ¬ i = 4 := by omega
  have h5 : ¬ i = 5 := by omega
  have h6 : ¬ i = 6 := by omega
  have hl : func_8009A8F0_loads i = [] := by
    simp [func_8009A8F0_loads, h0, h1, h2, h3, h4, h5, h6]
  refine ⟨hl, ?_⟩
  unfold func_8009A8F0
  rw [hl]
  rfl

theorem func_8009A8F0_out_of_range_noop_witness :
    ((7 : Int) < 0 ∨ (6 : Int) < 7) ∧ func_8009A8F0_loads 7 = [] :=
  ⟨Or.inr (by decide),
   (func_8009A8F0_out_of_range_noop
      ⟨fun _ => ⟨0, 0, 0⟩, fun _ => ⟨0, 0, fun _ => 0⟩, fun _ => 0⟩ 7
      ⟨fun _ => 0, 0, 0⟩ (Or.inr (by decide))).1⟩

/-- C10: for every stage index, `func_8009A8F0` leaves both globals
`D_800B0578` and `D_800AC00C` unchanged: its body is load calls only. -/
theorem func_8009A8F0_preserves_globals (L : LinkMap) (i : Int) (st : MachineState) :
    (func_8009A8F0 L i st).D_800B0578 = st.D_800B0578 ∧
    (func_8009A8F0 L i st).D_800AC00C = st.D_800AC00C :=
  fields_after_loads L (func_8009A8F0_loads i) st

/-- C4: each setter followed by its matching getter returns the value set,
unvalidated and untransformed, and the two globals are independent: setting
one leaves the other unchanged. -/
theorem accessor_roundtrip_independent (v : Int) (st : MachineState) :
    func_8009A8CC (func_8009A8C0 v st) = v ∧
    func_8009A8E4 (func_8009A8D8 v st) = v ∧
    func_8009A8E4 (func_8009A8C0 v st) = func_8009A8E4 st ∧
    func_8009A8CC (func_8009A8D8 v st) = func_8009A8CC st :=
  ⟨rfl, rfl, rfl, rfl⟩

/-- C9: the two volcano spawn wrappers ignore their `initData` argument:
each equals `spawnPokemonOnGround` on the same arguments with its fixed
static `PokemonInitData`, so calls differing only in `initData` agree. -/
theorem spawn_wrappers_ignore_initData {B S I O : Type} (env : SpawnEnv B S I O)
    (objID : Int) (id : Nat) (block blockB : B) (spawn : S) (i1 i2 : I) :
    func_802DB558_72C758 env objID id block blockB spawn i1 =
      env.spawnPokemonOnGround objID id block blockB spawn env.D_802E2710_733910 ∧
    func_802DB558_72C758 env objID id block blockB spawn i1 =
      func_802DB558_72C758 env objID id block blockB spawn i2 ∧
    func_802DE34C_72F54C env objID id block blockB spawn i1 =
      env.spawnPokemonOnGround objID id block blockB spawn env.D_802E31B0_7343B0 ∧
    func_802DE34C_72F54C env objID id block blockB spawn i1 =
      func_802DE34C_72F54C env objID id block blockB spawn i2 :=
  ⟨rfl, rfl, rfl, rfl⟩

/-- Helper: one-step unfolding of the loop iteration on a running state. -/
theorem sceneStepState_running (f : Nat → Int) (i : Nat) :
    sceneStepState f (.RUNNING i) =
      if f i ≠ 0 then .HALTED_ERROR
      else if i + 1 = 0x11 then .HALTED_LIMIT
      else .RUNNING (i + 1) := rfl

/-- Helper: the error spin transitions to itself. -/
theorem sceneStepState_error (f : Nat → Int) :
    sceneStepState f .HALTED_ERROR = .HALTED_ERROR := rfl

/-- Helper: the limit spin transitions to itself. -/
theorem sceneStepState_limit (f : Nat → Int) :
    sceneStepState f .HALTED_LIMIT = .HALTED_LIMIT := rfl

/-- Helper: commuting a step past a run of iterations. -/
theorem sceneRun_step_comm (f : Nat → Int) (n : Nat) (s : SceneState) :
    sceneRun f n (sceneStepState f s) = sceneStepState f (sceneRun f n s) := by
  induction n generalizing s with
  | zero => rfl
  | succ n ih => exact ih (sceneStepState f s)

/-- Helper: the loop state after `n + 1` iterations is one step past the
state after `n`. -/
theorem sceneRunState_succ (f : Nat → Int) (n : Nat) :
    sceneRunState f (n + 1) = sceneStepState f (sceneRunState f n) := by
  unfold sceneRunState
  show sceneRun f n (sceneStepState f (.RUNNING 0)) = _
  exact sceneRun_step_comm f n (.RUNNING 0)

/-- Helper: splitting a run of `a + m` iterations. -/
theorem sceneRun_add (f : Nat → Int) (a m : Nat) (s : SceneState) :
    sceneRun f (a + m) s = sceneRun f m (sceneRun f a s) := by
  induction a generalizing s with
  | zero => simp [sceneRun]
  | succ a ih =>
    have hrw : a + 1 + m = a + m + 1 := by omega
    rw [hrw]
    show sceneRun f (a + m) (sceneStepState f s) = _
    rw [ih (sceneStepState f s)]
    rfl

/-- Helper: `sceneRunState` version of `sceneRun_add`. -/
theorem sceneRunState_add (f : Nat → Int) (a m : Nat) :
    sceneRunState f (a + m) = sceneRun f m (sceneRunState f a) :=
  sceneRun_add f a m (.RUNNING 0)

/-- Helper: the error spin absorbs any further iterations. -/
theorem sceneRun_error_absorb (f : Nat → Int) (m : Nat) :
    sceneRun f m .HALTED_ERROR = .HALTED_ERROR := by
  induction m with
  | zero => rfl
  | succ m ih => exact ih

/-- Helper: while every step so far succeeded, the loop is running with
counter equal to the iteration count. -/
theorem run_success (f : Nat → Int) (n : Nat) (hn : n ≤ 16)
    (hf : ∀ j, j < n → f j = 0) : sceneRunState f n = .RUNNING n := by
  induction n with
  | zero => rfl
  | succ n ih =>
    rw [sceneRunState_succ, ih (by omega) (fun j hj => hf j (by omega)),
        sceneStepState_running, if_neg (not_not_intro (hf n (by omega))),
        if_neg (by omega : ¬ n + 1 = 0x11)]

/-- Helper: the events of an iteration taken from a running state. -/
theorem iterEvents_of_running (f : Nat → Int) (n i : Nat)
    (h : sceneRunState f n = .RUNNING i) :
    iterEvents f n = [.load (.load_overlay .D_800ABDEC),
                      .load (.load_overlay .D_800ABBD0), .callStep i] := by
  unfold iterEvents
  rw [h]
  rfl

/-- Helper: an iteration taken from the error spin emits no events. -/
theorem iterEvents_of_error (f : Nat → Int) (n : Nat)
    (h : sceneRunState f n = .HALTED_ERROR) : iterEvents f n = [] := by
  unfold iterEvents
  rw [h]
  rfl

/-- Helper: an iteration taken from the limit spin emits no events. -/
theorem iterEvents_of_limit (f : Nat → Int) (n : Nat)
    (h : sceneRunState f n = .HALTED_LIMIT) : iterEvents f n = [] := by
  unfold iterEvents
  rw [h]
  rfl

/-- Helper: after `n` iterations the loop is either running with counter
`n ≤ 16`, or in one of the two spins. -/
theorem sceneRunState_cases (f : Nat → Int) (n : Nat) :
    (sceneRunState f n = .RUNNING n ∧ n ≤ 16) ∨
    sceneRunState f n = .HALTED_ERROR ∨ sceneRunState f n = .HALTED_LIMIT := by
  induction n with
  | zero => exact Or.inl ⟨rfl, by omega⟩
  | succ n ih =>
    rw [sceneRunState_succ]
    rcases ih with ⟨h, hn⟩ | h | h
    · rw [h, sceneStepState_running]
      by_cases hf : f n ≠ 0
      · rw [if_pos hf]
        exact Or.inr (Or.inl rfl)
      · rw [if_neg hf]
        by_cases h17 : n + 1 = 0x11
        · rw [if_pos h17]
          exact Or.inr (Or.inr rfl)
        · rw [if_neg h17]
          exact Or.inl ⟨rfl, by omega⟩
    · rw [h, sceneStepState_error]
      exact Or.inr (Or.inl rfl)
    · rw [h, sceneStepState_limit]
      exact Or.inr (Or.inr rfl)

/-- C2: started at counter 0, every iteration `k` first reloads the two
manager overlays (`D_800ABDEC` then `D_800ABBD0`) and then invokes the step
function with argument `k`; if all 17 steps succeed the loop is in
`HALTED_LIMIT` after the 17th iteration; if the step first fails at
iteration `k < 17`, the loop is in `HALTED_ERROR` after iteration `k` and
no later iteration emits any load. -/
theorem func_8009B40C_run_behavior (f : Nat → Int) :
    (∀ k, k ≤ 16 → (∀ j, j < k → f j = 0) →
      iterEvents f k = [SceneEvent.load (Event.load_overlay OverlayName.D_800ABDEC),
                        SceneEvent.load (Event.load_overlay OverlayName.D_800ABBD0),
                        SceneEvent.callStep k]) ∧
    ((∀ k, k < 17 → f k = 0) → sceneRunState f 17 = SceneState.HALTED_LIMIT) ∧
    (∀ k, k < 17 → f k ≠ 0 → (∀ j, j < k → f j = 0) →
      sceneRunState f (k + 1) = SceneState.HALTED_ERROR ∧
      ∀ n, k + 1 ≤ n → iterEvents f n = []) := by
  refine ⟨?_, ?_, ?_⟩
  · intro k hk hf
    exact iterEvents_of_running f k k (run_success f k hk hf)
  · intro hf
    have h16 : sceneRunState f 16 = .RUNNING 16 :=
      run_success f 16 (by omega) (fun j hj => hf j (by omega))
    have : sceneRunState f (16 + 1) = SceneState.HALTED_LIMIT := by
      rw [sceneRunState_succ, h16, sceneStepState_running,
          if_neg (not_not_intro (hf 16 (by omega))), if_pos (by norm_num)]
    exact this
  · intro k hk hne hf
    have hrun : sceneRunState f k = .RUNNING k := run_success f k (by omega) hf
    have herr : sceneRunState f (k + 1) = SceneState.HALTED_ERROR := by
      rw [sceneRunState_succ, hrun, sceneStepState_running, if_pos hne]
    refine ⟨herr, ?_⟩
    intro n hn
    obtain ⟨m, rfl⟩ : ∃ m, n = k + 1 + m := ⟨n - (k + 1), by omega⟩
    exact iterEvents_of_error f (k + 1 + m)
      (by rw [sceneRunState_add f (k + 1) m, herr, sceneRun_error_absorb])

theorem func_8009B40C_run_behavior_witness :
    sceneRunState (fun _ => 0) 17 = SceneState.HALTED_LIMIT ∧
    sceneRunState (fun _ => 1) 1 = SceneState.HALTED_ERROR ∧
    iterEvents (fun _ => 0) 0 = [SceneEvent.load (Event.load_overlay OverlayName.D_800ABDEC),
                                 SceneEvent.load (Event.load_overlay OverlayName.D_800ABBD0),
                                 SceneEvent.callStep 0] :=
  ⟨(func_8009B40C_run_behavior (fun _ => 0)).2.1 (fun _ _ => rfl),
   ((func_8009B40C_run_behavior (fun _ => 1)).2.2 0 (by omega) (by norm_num)
      (fun j hj => absurd hj (by omega))).1,
   (func_8009B40C_run_behavior (fun _ => 0)).1 0 (by omega)
      (fun j hj => absurd hj (by omega))⟩

/-- C5: in every reachable running state the counter is at most 0x10, and
the step function is only ever invoked with arguments in 0..16; 0x11 is
only reached as the `HALTED_LIMIT` condition. -/
theorem func_8009B40C_counter_invariant (f : Nat → Int) (n : Nat) :
    (∀ c, sceneRunState f n = SceneState.RUNNING c → c ≤ 16) ∧
    (∀ i, SceneEvent.callStep i ∈ iterEvents f n → i ≤ 16) := by
  rcases sceneRunState_cases f n with ⟨h, hn⟩ | h | h
  · constructor
    · intro c hc
      rw [h] at hc
      injection hc with h2
      omega
    · intro i hi
      rw [iterEvents_of_running f n n h] at hi
      simp at hi
      omega
  · constructor
    · intro c hc
      rw [h] at hc
      simp at hc
    · intro i hi
      rw [iterEvents_of_error f n h] at hi
      simp at hi
  · constructor
    · intro c hc
      rw [h] at hc
      simp at hc
    · intro i hi
      rw [iterEvents_of_limit f n h] at hi
      simp at hi

theorem func_8009B40C_counter_invariant_witness :
    (0 : Nat) ≤ 16 ∧ (0 : Nat) ≤ 16 :=
  ⟨(func_8009B40C_counter_invariant (fun _ => 0) 0).1 0 rfl,
   (func_8009B40C_counter_invariant (fun _ => 0) 0).2 0 (by
      rw [iterEvents_of_running (fun _ => 0) 0 0 rfl]
      simp)⟩

/-- C6: the loop never yields control back: for every behaviour of the
external step function, every iteration from every state produces a next
state (`none`, modelling a return to the caller, never occurs), the two
halted states only transition to themselves with no overlay reloads, and
every execution is at each instant either running or parked in a halted
state. -/
theorem func_8009B40C_never_returns (f : Nat → Int) (s : SceneState) :
    (func_8009B40C_step f s).isSome = true ∧
    func_8009B40C_step f SceneState.HALTED_ERROR = some (SceneState.HALTED_ERROR, []) ∧
    func_8009B40C_step f SceneState.HALTED_LIMIT = some (SceneState.HALTED_LIMIT, []) ∧
    (∀ n, (∃ c, sceneRunState f n = SceneState.RUNNING c) ∨
      sceneRunState f n = SceneState.HALTED_ERROR ∨
      sceneRunState f n = SceneState.HALTED_LIMIT) := by
  refine ⟨?_, rfl, rfl, ?_⟩
  · cases s <;> rfl
  · intro n
    rcases sceneRunState_cases f n with ⟨h, _⟩ | h | h
    · exact Or.inl ⟨n, h⟩
    · exact Or.inr (Or.inl h)
    · exact Or.inr (Or.inr h)
